import Mathlib

/-!
# Verification of the LAES (Liquid Air Energy Storage) model

Shallow embedding of the core of the `laes` package:

* `src/laes/storage.py`   — `ThermalStorage` and `LiquidAirTank`
* `src/laes/config.py`    — `PlantConfig` with its derived properties
* `src/laes/thermodynamics.py` — stage models, liquefaction / discharge
  cycle solvers and the round-trip-efficiency calculator
* `src/laes/simulation.py` — the charge / discharge steps of `LAESSimulator`

Python floats are embedded as real numbers (`ℝ`).  The external real-gas
property evaluator (CoolProp's `PropsSI`) is embedded as an abstract
`AirProvider` record of lookup functions; a quality query that may raise a
CoolProp exception is an `Option ℝ` (`none` = the lookup raised).
`float('inf')` for the specific consumption is embedded as the `none` case
of an `Option ℝ`.  A Python `ZeroDivisionError` raised by a float division
is embedded by returning `none` from the surrounding computation.
A call to `warnings.warn` (non-fatal) is embedded as a `Prop`-valued
`warned` field of the result record.
-/

open Classical

noncomputable section

/-! ## `src/laes/storage.py` -/

/-- State of `ThermalStorage`: mirrors the instance attributes set in
`ThermalStorage.__init__` (storage.py lines 9–19). -/
structure ThermalStorage where
  capacity_J : ℝ
  loss_rate : ℝ
  efficiency : ℝ
  charge_eff : ℝ
  discharge_eff : ℝ
  energy_J : ℝ
  total_charged_J : ℝ
  total_discharged_J : ℝ
  total_lost_J : ℝ
  overflow_J : ℝ

/-- `ThermalStorage.__init__` (the Python default for `efficiency` is 0.90):
`charge_eff = discharge_eff = sqrt(efficiency)`, all counters zero. -/
def ThermalStorage.init (capacity_J loss_rate_per_s efficiency : ℝ) : ThermalStorage :=
  { capacity_J := capacity_J
    loss_rate := loss_rate_per_s
    efficiency := efficiency
    charge_eff := Real.sqrt efficiency
    discharge_eff := Real.sqrt efficiency
    energy_J := 0
    total_charged_J := 0
    total_discharged_J := 0
    total_lost_J := 0
    overflow_J := 0 }

/-- `ThermalStorage.soc` (storage.py lines 21–23). -/
def ThermalStorage.soc (s : ThermalStorage) : ℝ :=
  if 0 < s.capacity_J then s.energy_J / s.capacity_J else 0

/-- `ThermalStorage.charge` (storage.py lines 25–33): returns
`actually_stored` and the updated store. -/
def ThermalStorage.charge (s : ThermalStorage) (energy_J : ℝ) : ℝ × ThermalStorage :=
  let energy_after_loss := energy_J * s.charge_eff
  let available := s.capacity_J - s.energy_J
  let actually_stored := min energy_after_loss available
  let overflow := energy_after_loss - actually_stored
  (actually_stored,
    { s with
      energy_J := s.energy_J + actually_stored
      total_charged_J := s.total_charged_J + energy_J
      overflow_J := s.overflow_J + overflow })

/-- `ThermalStorage.discharge` (storage.py lines 35–41): returns
`actually_delivered` and the updated store. -/
def ThermalStorage.discharge (s : ThermalStorage) (energy_requested_J : ℝ) :
    ℝ × ThermalStorage :=
  let stored_needed := energy_requested_J / s.discharge_eff
  let actually_used := min stored_needed s.energy_J
  let actually_delivered := actually_used * s.discharge_eff
  (actually_delivered,
    { s with
      energy_J := s.energy_J - actually_used
      total_discharged_J := s.total_discharged_J + actually_delivered })

/-- `ThermalStorage.apply_losses` (storage.py lines 43–48): exponential
self-discharge over `dt_s`; returns the lost energy and the updated store. -/
def ThermalStorage.applyLosses (s : ThermalStorage) (dt_s : ℝ) : ℝ × ThermalStorage :=
  let energy_after := s.energy_J * Real.exp (-s.loss_rate * dt_s)
  let lost := s.energy_J - energy_after
  (lost,
    { s with
      energy_J := energy_after
      total_lost_J := s.total_lost_J + lost })

/-- State of `LiquidAirTank` (storage.py lines 51–59). -/
structure LiquidAirTank where
  capacity_kg : ℝ
  min_level_frac : ℝ
  boiloff_rate : ℝ
  mass_kg : ℝ
  total_charged_kg : ℝ
  total_discharged_kg : ℝ
  total_boiloff_kg : ℝ

/-- `LiquidAirTank.__init__`. -/
def LiquidAirTank.init (capacity_kg min_level_frac boiloff_rate_per_s : ℝ) : LiquidAirTank :=
  { capacity_kg := capacity_kg
    min_level_frac := min_level_frac
    boiloff_rate := boiloff_rate_per_s
    mass_kg := 0
    total_charged_kg := 0
    total_discharged_kg := 0
    total_boiloff_kg := 0 }

/-- `LiquidAirTank.level` (storage.py lines 61–63). -/
def LiquidAirTank.level (t : LiquidAirTank) : ℝ := t.mass_kg / t.capacity_kg

/-- `LiquidAirTank.available_kg` (storage.py lines 65–68):
`max(0, mass − min_level_frac·capacity)`. -/
def LiquidAirTank.available_kg (t : LiquidAirTank) : ℝ :=
  max 0 (t.mass_kg - t.min_level_frac * t.capacity_kg)

/-- `LiquidAirTank.charge` (storage.py lines 70–75). -/
def LiquidAirTank.charge (t : LiquidAirTank) (mass_kg : ℝ) : ℝ × LiquidAirTank :=
  let available := t.capacity_kg - t.mass_kg
  let actually_stored := min mass_kg available
  (actually_stored,
    { t with
      mass_kg := t.mass_kg + actually_stored
      total_charged_kg := t.total_charged_kg + actually_stored })

/-- `LiquidAirTank.discharge` (storage.py lines 77–81). -/
def LiquidAirTank.discharge (t : LiquidAirTank) (mass_kg : ℝ) : ℝ × LiquidAirTank :=
  let actually_discharged := min mass_kg t.available_kg
  (actually_discharged,
    { t with
      mass_kg := t.mass_kg - actually_discharged
      total_discharged_kg := t.total_discharged_kg + actually_discharged })

/-- `LiquidAirTank.apply_boiloff` (storage.py lines 83–88). -/
def LiquidAirTank.applyBoiloff (t : LiquidAirTank) (dt_s : ℝ) : ℝ × LiquidAirTank :=
  let mass_after := t.mass_kg * Real.exp (-t.boiloff_rate * dt_s)
  let lost := t.mass_kg - mass_after
  (lost,
    { t with
      mass_kg := mass_after
      total_boiloff_kg := t.total_boiloff_kg + lost })

/-! ### Operation sequences on the two stores (for the storage invariant) -/

/-- One mutating call on a `ThermalStorage`. -/
inductive TSOp where
  | charge (energy_J : ℝ)
  | discharge (energy_requested_J : ℝ)
  | applyLosses (dt_s : ℝ)

/-- All numeric arguments of the operation are non-negative. -/
def TSOp.argsNonneg : TSOp → Prop
  | .charge e => 0 ≤ e
  | .discharge e => 0 ≤ e
  | .applyLosses dt => 0 ≤ dt

/-- Apply one operation, discarding the returned amount. -/
def ThermalStorage.applyOp (s : ThermalStorage) : TSOp → ThermalStorage
  | .charge e => (s.charge e).2
  | .discharge e => (s.discharge e).2
  | .applyLosses dt => (s.applyLosses dt).2

/-- Run a sequence of operations in order. -/
def ThermalStorage.runOps (ops : List TSOp) (s : ThermalStorage) : ThermalStorage :=
  ops.foldl ThermalStorage.applyOp s

/-- One mutating call on a `LiquidAirTank`. -/
inductive TankOp where
  | charge (mass_kg : ℝ)
  | discharge (mass_kg : ℝ)
  | applyBoiloff (dt_s : ℝ)

/-- All numeric arguments of the operation are non-negative. -/
def TankOp.argsNonneg : TankOp → Prop
  | .charge m => 0 ≤ m
  | .discharge m => 0 ≤ m
  | .applyBoiloff dt => 0 ≤ dt

/-- Apply one operation, discarding the returned amount. -/
def LiquidAirTank.applyOp (t : LiquidAirTank) : TankOp → LiquidAirTank
  | .charge m => (t.charge m).2
  | .discharge m => (t.discharge m).2
  | .applyBoiloff dt => (t.applyBoiloff dt).2

/-- Run a sequence of operations in order. -/
def LiquidAirTank.runOps (ops : List TankOp) (t : LiquidAirTank) : LiquidAirTank :=
  ops.foldl LiquidAirTank.applyOp t

/-! ## `src/laes/config.py` -/

/-- `PlantConfig` (config.py lines 22–215): a plain dataclass.  Field defaults
mirror the Python defaults.  The dataclass performs no validation of any
kind in `__init__` (there is no `__post_init__`), so construction is a total
function of the field values. -/
structure PlantConfig where
  charge_power_MW : ℝ := 10
  discharge_power_MW : ℝ := 10
  storage_duration_hours : ℝ := 4
  tank_capacity_tonnes : ℝ := 200
  tank_min_level_pct : ℝ := 10
  boiloff_pct_per_day : ℝ := 0.2
  P_charge_bar : ℝ := 50
  P_discharge_bar : ℝ := 70
  T_ambient_C : ℝ := 25
  T_superheat_C : ℝ := 250
  n_compressor_stages : ℕ := 3
  n_turbine_stages : ℕ := 4
  bypass_fraction : ℝ := 0.45
  eta_compressor : ℝ := 0.85
  eta_cryo_turbine : ℝ := 0.80
  eta_turbine : ℝ := 0.85
  eta_pump : ℝ := 0.75
  hx_effectiveness : ℝ := 0.90
  hot_storage_loss_pct_per_day : ℝ := 1.0
  hot_storage_efficiency : ℝ := 0.90
  cold_storage_loss_pct_per_day : ℝ := 5.0
  cold_storage_efficiency : ℝ := 0.85
  price_offpeak_MWh : ℝ := 30
  price_onpeak_MWh : ℝ := 80
  discount_rate : ℝ := 0.08
  project_years : ℕ := 25

/-- The all-defaults configuration `PlantConfig()`. -/
def defaultConfig : PlantConfig := {}

/-- Derived property `charge_power_kW` (config.py lines 220–223). -/
def PlantConfig.charge_power_kW (c : PlantConfig) : ℝ := c.charge_power_MW * 1000

/-- Derived property `discharge_power_kW`. -/
def PlantConfig.discharge_power_kW (c : PlantConfig) : ℝ := c.discharge_power_MW * 1000

/-- Derived property `storage_capacity_MWh`. -/
def PlantConfig.storage_capacity_MWh (c : PlantConfig) : ℝ :=
  c.discharge_power_MW * c.storage_duration_hours

/-- Derived property `tank_capacity_kg`. -/
def PlantConfig.tank_capacity_kg (c : PlantConfig) : ℝ := c.tank_capacity_tonnes * 1000

/-- Derived property `P_charge_Pa`. -/
def PlantConfig.P_charge_Pa (c : PlantConfig) : ℝ := c.P_charge_bar * 1e5

/-- Derived property `P_discharge_Pa`. -/
def PlantConfig.P_discharge_Pa (c : PlantConfig) : ℝ := c.P_discharge_bar * 1e5

/-- Derived property `P_ambient_Pa` (constant 101325 Pa). -/
def PlantConfig.P_ambient_Pa (_ : PlantConfig) : ℝ := 101325

/-- Derived property `T_ambient_K`. -/
def PlantConfig.T_ambient_K (c : PlantConfig) : ℝ := c.T_ambient_C + 273.15

/-- Derived property `T_superheat_K`. -/
def PlantConfig.T_superheat_K (c : PlantConfig) : ℝ := c.T_superheat_C + 273.15

/-- Derived property `T_intercool_K` (fixed 308.15 K). -/
def PlantConfig.T_intercool_K (_ : PlantConfig) : ℝ := 308.15

/-- Derived property `boiloff_rate_per_s` (`%/day` to `1/s`). -/
def PlantConfig.boiloff_rate_per_s (c : PlantConfig) : ℝ :=
  (c.boiloff_pct_per_day / 100) / (24 * 3600)

/-- Derived property `hot_loss_rate_per_s`. -/
def PlantConfig.hot_loss_rate_per_s (c : PlantConfig) : ℝ :=
  (c.hot_storage_loss_pct_per_day / 100) / (24 * 3600)

/-- Derived property `cold_loss_rate_per_s`. -/
def PlantConfig.cold_loss_rate_per_s (c : PlantConfig) : ℝ :=
  (c.cold_storage_loss_pct_per_day / 100) / (24 * 3600)

/-- Modelled from the spec: the configuration-validity requirement of
spec §7 ("positive powers, efficiencies in range, stage counts ≥ 1"),
which `src/laes/config.py` never implements — no constructor validation
exists anywhere in the source.  This predicate is the spec-side notion
of a valid parameter set, used to compare the spec's claimed behaviour
with the actual (validation-free) construction. -/
def specConfigValid (c : PlantConfig) : Prop :=
  0 < c.charge_power_MW ∧ 0 < c.discharge_power_MW ∧
  (0 < c.eta_compressor ∧ c.eta_compressor ≤ 1) ∧
  (0 < c.eta_cryo_turbine ∧ c.eta_cryo_turbine ≤ 1) ∧
  (0 < c.eta_turbine ∧ c.eta_turbine ≤ 1) ∧
  (0 < c.eta_pump ∧ c.eta_pump ≤ 1) ∧
  1 ≤ c.n_compressor_stages ∧ 1 ≤ c.n_turbine_stages

/-! ## `src/laes/thermodynamics.py`

The CoolProp `PropsSI` lookups are the external Air Property Provider of
spec §4.1; they are embedded as an abstract record of lookup functions.
The quality query `PropsSI('Q','P',·,'H',·)` may raise (caught by the
`try/except` at thermodynamics.py lines 267–289), so it is `Option`-valued:
`none` embeds a raised CoolProp exception. -/

/-- Abstract Air Property Provider (the `PropsSI` calls used by the module). -/
structure AirProvider where
  /-- `PropsSI('H','T',T,'P',P,'Air')` -/
  H_TP : ℝ → ℝ → ℝ
  /-- `PropsSI('S','T',T,'P',P,'Air')` -/
  S_TP : ℝ → ℝ → ℝ
  /-- `PropsSI('H','S',s,'P',P,'Air')` -/
  H_SP : ℝ → ℝ → ℝ
  /-- `PropsSI('T','H',h,'P',P,'Air')` -/
  T_HP : ℝ → ℝ → ℝ
  /-- `PropsSI('T','P',P,'Q',q,'Air')` -/
  T_PQ : ℝ → ℝ → ℝ
  /-- `PropsSI('H','P',P,'Q',q,'Air')` -/
  H_PQ : ℝ → ℝ → ℝ
  /-- `PropsSI('D','T',T,'P',P,'Air')` -/
  D_TP : ℝ → ℝ → ℝ
  /-- `PropsSI('Q','P',P,'H',h,'Air')`; `none` = the lookup raised. -/
  Q_PH : ℝ → ℝ → Option ℝ

/-- `compressor_stage` (thermodynamics.py lines 32–64):
returns `(T_out, h_out, w_actual)`. -/
def compressorStage (prov : AirProvider) (T_in P_in P_out eta_s : ℝ) : ℝ × ℝ × ℝ :=
  let h_in := prov.H_TP T_in P_in
  let s_in := prov.S_TP T_in P_in
  let h_out_s := prov.H_SP s_in P_out
  let w_actual := (h_out_s - h_in) / eta_s
  let h_out := h_in + w_actual
  (prov.T_HP h_out P_out, h_out, w_actual)

/-- `turbine_stage` (thermodynamics.py lines 67–99):
returns `(T_out, h_out, w_actual)`. -/
def turbineStage (prov : AirProvider) (T_in P_in P_out eta_s : ℝ) : ℝ × ℝ × ℝ :=
  let h_in := prov.H_TP T_in P_in
  let s_in := prov.S_TP T_in P_in
  let h_out_s := prov.H_SP s_in P_out
  let w_actual := (h_in - h_out_s) * eta_s
  let h_out := h_in - w_actual
  (prov.T_HP h_out P_out, h_out, w_actual)

/-- `_derive_cold_return_temperature` (thermodynamics.py lines 102–154). -/
def deriveColdReturnTemperature (prov : AirProvider)
    (P_high P_low T_intercool bypass_frac eta_cryo_turbine : ℝ) : ℝ :=
  let h_bypass_out := (turbineStage prov T_intercool P_high P_low eta_cryo_turbine).2.1
  let T_sep_vapor := prov.T_PQ P_low 1
  let h_sep_vapor := prov.H_TP T_sep_vapor P_low
  let main_frac := 1 - bypass_frac
  let Y_approx := (0.30 : ℝ)
  let vapor_return_frac := main_frac * (1 - Y_approx)
  let total_return := bypass_frac + vapor_return_frac
  let h_return := (bypass_frac * h_bypass_out + vapor_return_frac * h_sep_vapor) / total_return
  prov.T_HP h_return P_low

/-- Running state of the intercooled compression loop of
`calculate_liquefaction` (thermodynamics.py lines 197–219):
`(w_compression, q_rejected, T_current, P_current)`. -/
structure CompressionState where
  w_compression : ℝ
  q_rejected : ℝ
  T_current : ℝ
  P_current : ℝ

/-- One pass of the compression `for` loop body. -/
def compressionStep (prov : AirProvider) (eta T_intercool pr_stage : ℝ)
    (st : CompressionState) : CompressionState :=
  let P_next := st.P_current * pr_stage
  let r := compressorStage prov st.T_current st.P_current P_next eta
  let h_cooled := prov.H_TP T_intercool P_next
  { w_compression := st.w_compression + r.2.2
    q_rejected := st.q_rejected + (r.2.1 - h_cooled)
    T_current := T_intercool
    P_current := P_next }

/-- `for _ in range(n_stages)` of the compression loop. -/
def compressionLoop (prov : AirProvider) (eta T_intercool pr_stage : ℝ) :
    ℕ → CompressionState → CompressionState
  | 0, st => st
  | n + 1, st => compressionLoop prov eta T_intercool pr_stage n
      (compressionStep prov eta T_intercool pr_stage st)

/-- The compression section of `calculate_liquefaction`
(thermodynamics.py lines 192–219). -/
def liqCompression (cfg : PlantConfig) (prov : AirProvider) : CompressionState :=
  let pr_stage := (cfg.P_charge_Pa / cfg.P_ambient_Pa) ^ ((1 : ℝ) / cfg.n_compressor_stages)
  compressionLoop prov cfg.eta_compressor cfg.T_intercool_K pr_stage cfg.n_compressor_stages
    { w_compression := 0, q_rejected := 0
      T_current := cfg.T_ambient_K, P_current := cfg.P_ambient_Pa }

/-- `T_cold_return` of `calculate_liquefaction` (lines 229–232). -/
def tColdReturn (cfg : PlantConfig) (prov : AirProvider) : ℝ :=
  deriveColdReturnTemperature prov cfg.P_charge_Pa cfg.P_ambient_Pa cfg.T_intercool_K
    cfg.bypass_fraction cfg.eta_cryo_turbine

/-- `T_after_hx1` (line 234): HX1 cools toward the derived cold-return
temperature, scaled by the HX effectiveness. -/
def tAfterHx1 (cfg : PlantConfig) (prov : AirProvider) : ℝ :=
  let T := (liqCompression cfg prov).T_current
  T - cfg.hx_effectiveness * (T - tColdReturn cfg prov)

/-- `h_before_cold` (line 238). -/
def hBeforeCold (cfg : PlantConfig) (prov : AirProvider) : ℝ :=
  prov.H_TP (tAfterHx1 cfg prov) cfg.P_charge_Pa

/-- `T_min_safe` (line 242): saturation temperature at `P_high` plus a 2 K margin. -/
def tMinSafe (cfg : PlantConfig) (prov : AirProvider) : ℝ :=
  prov.T_PQ cfg.P_charge_Pa 0 + 2.0

/-- `h_min` (line 243): enthalpy at the floor temperature. -/
def hMinSafe (cfg : PlantConfig) (prov : AirProvider) : ℝ :=
  prov.H_TP (tMinSafe cfg prov) cfg.P_charge_Pa

/-- `h_after_cold` after the clamp (lines 239–244):
`max(h_before_cold − cold, h_min)`. -/
def hAfterCold (cfg : PlantConfig) (prov : AirProvider) (cold_available : ℝ) : ℝ :=
  max (hBeforeCold cfg prov - cold_available) (hMinSafe cfg prov)

/-- The cold-store HX branch (lines 236–250): returns
`(T_after_cold, cold_used)`. -/
def coldStep (cfg : PlantConfig) (prov : AirProvider) (cold_available : ℝ) : ℝ × ℝ :=
  if 0 < cold_available then
    (prov.T_HP (hAfterCold cfg prov cold_available) cfg.P_charge_Pa,
      hBeforeCold cfg prov - hAfterCold cfg prov cold_available)
  else
    (tAfterHx1 cfg prov, 0)

/-- `T_after_cold` (first component of the cold-store HX branch). -/
def tAfterCold (cfg : PlantConfig) (prov : AirProvider) (cold_available : ℝ) : ℝ :=
  (coldStep cfg prov cold_available).1

/-- The bypass (cryogenic) turbine call (lines 256–259). -/
def bypassTurbine (cfg : PlantConfig) (prov : AirProvider) (cold_available : ℝ) : ℝ × ℝ × ℝ :=
  turbineStage prov (tAfterCold cfg prov cold_available) cfg.P_charge_Pa cfg.P_ambient_Pa
    cfg.eta_cryo_turbine

/-- `T_after_hx2` (line 263). -/
def tAfterHx2 (cfg : PlantConfig) (prov : AirProvider) (cold_available : ℝ) : ℝ :=
  let T := tAfterCold cfg prov cold_available
  T - cfg.hx_effectiveness * (T - (bypassTurbine cfg prov cold_available).1)

/-- `h_before_jt` (line 266). -/
def hBeforeJt (cfg : PlantConfig) (prov : AirProvider) (cold_available : ℝ) : ℝ :=
  prov.H_TP (tAfterHx2 cfg prov cold_available) cfg.P_charge_Pa

/-- The throttle-outlet quality query (line 268); `none` = CoolProp raised. -/
def jtQuality (cfg : PlantConfig) (prov : AirProvider) (cold_available : ℝ) : Option ℝ :=
  prov.Q_PH cfg.P_ambient_Pa (hBeforeJt cfg prov cold_available)

/-- The `try/except` block around the J-T quality query
(thermodynamics.py lines 267–289): returns
`(liquid_fraction_jt, warned)`.  The code warns only when the quality
exceeds 1 or when the lookup raised; a quality below 0 silently zeroes
the liquid fraction. -/
def jtStep : Option ℝ → ℝ × Prop
  | none => (0, True)
  | some quality =>
      if 0 ≤ quality ∧ quality ≤ 1 then (1 - quality, False)
      else (0, 1 < quality)

/-- Result record of `calculate_liquefaction` (thermodynamics.py lines
298–309).  `specific_consumption_J_per_kg = none` embeds `float('inf')`.
`warned` records whether a (non-fatal) `warnings.warn` call was issued. -/
structure LiqResult where
  liquid_yield : ℝ
  net_work_J_per_kg : ℝ
  specific_consumption_J_per_kg : Option ℝ
  specific_consumption_kWh_per_kg : Option ℝ
  compression_work_J_per_kg : ℝ
  turbine_work_J_per_kg : ℝ
  heat_rejected_J_per_kg : ℝ
  cold_used_J_per_kg : ℝ
  T_before_JT_K : ℝ
  T_cold_return_K : ℝ
  warned : Prop

/-- `calculate_liquefaction` (thermodynamics.py lines 157–309): Claude-cycle
liquefaction performance for the given recycled-cold amount (default 0). -/
def calculateLiquefaction (cfg : PlantConfig) (prov : AirProvider)
    (cold_available_J_per_kg : ℝ) : LiqResult :=
  let comp := liqCompression cfg prov
  let cold_used := (coldStep cfg prov cold_available_J_per_kg).2
  let bypass_frac := cfg.bypass_fraction
  let main_frac := 1 - bypass_frac
  let w_turbine_total := (bypassTurbine cfg prov cold_available_J_per_kg).2.2 * bypass_frac
  let jt := jtStep (jtQuality cfg prov cold_available_J_per_kg)
  let liquid_yield := main_frac * jt.1
  let net_work := comp.w_compression - w_turbine_total
  let specific_consumption : Option ℝ :=
    if 0 < liquid_yield then some (net_work / liquid_yield) else none
  { liquid_yield := liquid_yield
    net_work_J_per_kg := net_work
    specific_consumption_J_per_kg := specific_consumption
    specific_consumption_kWh_per_kg := specific_consumption.map (· / 3.6e6)
    compression_work_J_per_kg := comp.w_compression
    turbine_work_J_per_kg := w_turbine_total
    heat_rejected_J_per_kg := comp.q_rejected
    cold_used_J_per_kg := cold_used
    T_before_JT_K := tAfterHx2 cfg prov cold_available_J_per_kg
    T_cold_return_K := tColdReturn cfg prov
    warned := jt.2 }

/-- Result record of `calculate_discharge` (thermodynamics.py lines 409–417). -/
structure DisResult where
  net_work_J_per_kg : ℝ
  net_work_kWh_per_kg : ℝ
  turbine_work_J_per_kg : ℝ
  pump_work_J_per_kg : ℝ
  heat_consumed_J_per_kg : ℝ
  cold_recoverable_J_per_kg : ℝ
  T_cold_recovery_end_K : ℝ

/-- Running state of the reheat-turbine loop of `calculate_discharge`
(thermodynamics.py lines 381–405). -/
structure TurbineLoopState where
  w_turbine_total : ℝ
  q_reheat_total : ℝ
  T_current : ℝ
  P_current : ℝ

/-- Body of `for i in range(n_stages)` of the turbine loop: reheat back to
`T_superheat` after every stage except the last. -/
def turbineLoopStep (prov : AirProvider) (eta T_superheat pr_stage : ℝ) (n_stages : ℕ)
    (st : TurbineLoopState) (i : ℕ) : TurbineLoopState :=
  let P_next := st.P_current / pr_stage
  let r := turbineStage prov st.T_current st.P_current P_next eta
  let w_total := st.w_turbine_total + r.2.2
  if i < n_stages - 1 then
    { w_turbine_total := w_total
      q_reheat_total := st.q_reheat_total + (prov.H_TP T_superheat P_next - r.2.1)
      T_current := T_superheat
      P_current := P_next }
  else
    { w_turbine_total := w_total
      q_reheat_total := st.q_reheat_total
      T_current := r.1
      P_current := P_next }

/-- `calculate_discharge` (thermodynamics.py lines 312–417). -/
def calculateDischarge (cfg : PlantConfig) (prov : AirProvider) : DisResult :=
  let P_high := cfg.P_discharge_Pa
  let P_low := cfg.P_ambient_Pa
  let T_superheat := cfg.T_superheat_K
  let T_liquid := prov.T_PQ P_low 0
  let h_liquid := prov.H_PQ P_low 0
  let rho_liquid := prov.D_TP T_liquid P_low
  let v_liquid := 1 / rho_liquid
  let w_pump := v_liquid * (P_high - P_low) / cfg.eta_pump
  let h_after_pump := h_liquid + w_pump
  let h_cold_end := prov.H_TP cfg.T_intercool_K P_high
  let cold_recoverable := h_cold_end - h_after_pump
  let h_superheat := prov.H_TP T_superheat P_high
  let q_heat_input := h_superheat - h_after_pump
  let n_stages := cfg.n_turbine_stages
  let pr_stage := (P_high / P_low) ^ ((1 : ℝ) / n_stages)
  let st := (List.range n_stages).foldl
    (turbineLoopStep prov cfg.eta_turbine T_superheat pr_stage n_stages)
    { w_turbine_total := 0, q_reheat_total := q_heat_input
      T_current := T_superheat, P_current := P_high }
  let w_net := st.w_turbine_total - w_pump
  { net_work_J_per_kg := w_net
    net_work_kWh_per_kg := w_net / 3.6e6
    turbine_work_J_per_kg := st.w_turbine_total
    pump_work_J_per_kg := w_pump
    heat_consumed_J_per_kg := st.q_reheat_total
    cold_recoverable_J_per_kg := cold_recoverable
    T_cold_recovery_end_K := cfg.T_intercool_K }

/-! ### `calculate_rte` (thermodynamics.py lines 420–505)

Python float division raises `ZeroDivisionError` when the denominator is
`0.0`; dividing a finite float by `float('inf')` yields `0.0`.  The whole
call is therefore `Option`-valued: `none` embeds an uncaught
`ZeroDivisionError`. -/

/-- A Python float division: `none` embeds a raised `ZeroDivisionError`. -/
def pydiv (a b : ℝ) : Option ℝ := if b = 0 then none else some (a / b)

/-- Divide a finite float by a possibly-infinite specific consumption
(`none` = `float('inf')`, for which Python yields `0.0`). -/
def divBySC (w : ℝ) : Option ℝ → Option ℝ
  | none => some 0
  | some sc => pydiv w sc

/-- Result record of `calculate_rte` (thermodynamics.py lines 497–504). -/
structure RteResult where
  rte_no_cold : ℝ
  rte_with_cold : ℝ
  improvement_pct : ℝ
  liquefaction_no_cold : LiqResult
  liquefaction_with_cold : LiqResult
  discharge : DisResult

/-- `calculate_rte` (thermodynamics.py lines 420–505): discharge once,
liquefaction twice (without and with recycled cold scaled by the cold-store
efficiency), then `improvement_pct = (rte_with_cold / rte_no_cold − 1)·100`.
The final division is unguarded in the source. -/
def calculateRte (cfg : PlantConfig) (prov : AirProvider) : Option RteResult :=
  let dis := calculateDischarge cfg prov
  let liq_no_cold := calculateLiquefaction cfg prov 0
  (divBySC dis.net_work_J_per_kg liq_no_cold.specific_consumption_J_per_kg).bind fun rte_no =>
    let cold_available := dis.cold_recoverable_J_per_kg * cfg.cold_storage_efficiency
    let liq_with_cold := calculateLiquefaction cfg prov cold_available
    (divBySC dis.net_work_J_per_kg liq_with_cold.specific_consumption_J_per_kg).bind
      fun rte_with =>
        (pydiv rte_with rte_no).bind fun q =>
          some { rte_no_cold := rte_no
                 rte_with_cold := rte_with
                 improvement_pct := (q - 1) * 100
                 liquefaction_no_cold := liq_no_cold
                 liquefaction_with_cold := liq_with_cold
                 discharge := dis }

/-! ## `src/laes/simulation.py` -/

/-- Operating mode of a simulation step.  The Python code dispatches on the
strings `'charge' / 'discharge' / 'idle'`; the closed set is embedded as an
enumeration. -/
inductive SimMode where
  | charge
  | discharge
  | idle

/-- `TimeStepData` (simulation.py lines 21–45): the per-step record, with
the Python dataclass defaults. -/
structure TimeStepData where
  time_hours : ℝ
  mode : SimMode
  power_in_kW : ℝ := 0
  power_out_kW : ℝ := 0
  tank_level_pct : ℝ := 0
  hot_soc_pct : ℝ := 0
  cold_soc_pct : ℝ := 0
  liquid_produced_kg : ℝ := 0
  liquid_consumed_kg : ℝ := 0
  boiloff_kg : ℝ := 0
  energy_in_kWh : ℝ := 0
  energy_out_kWh : ℝ := 0

/-- Mutable state of `LAESSimulator` (simulation.py lines 81–100): the
configuration, the (implicit, module-level) property provider, the three
owned storage objects and the cumulative energy totals. -/
structure LAESSimulator where
  cfg : PlantConfig
  prov : AirProvider
  tank : LiquidAirTank
  hot_storage : ThermalStorage
  cold_storage : ThermalStorage
  total_energy_in_kWh : ℝ
  total_energy_out_kWh : ℝ

/-- Precomputed `self.liq_no_cold` (simulation.py line 85). -/
def LAESSimulator.liq_no_cold (s : LAESSimulator) : LiqResult :=
  calculateLiquefaction s.cfg s.prov 0

/-- Precomputed `self.discharge_perf` (simulation.py line 86). -/
def LAESSimulator.discharge_perf (s : LAESSimulator) : DisResult :=
  calculateDischarge s.cfg s.prov

/-- `self.specific_output` (line 90): discharge net work per kg of liquid. -/
def LAESSimulator.specific_output (s : LAESSimulator) : ℝ :=
  s.discharge_perf.net_work_J_per_kg

/-- `self.heat_per_kg_discharge` (line 91). -/
def LAESSimulator.heat_per_kg_discharge (s : LAESSimulator) : ℝ :=
  s.discharge_perf.heat_consumed_J_per_kg

/-- `self.cold_per_kg` (line 92). -/
def LAESSimulator.cold_per_kg (s : LAESSimulator) : ℝ :=
  s.discharge_perf.cold_recoverable_J_per_kg

/-! ### `_execute_charge` (simulation.py lines 231–271) -/

/-- `cold_per_kg` drawn from the cold store (lines 236–247): capped at
150 kJ/kg, zero when the cold store is empty or no air is processed. -/
def chargeColdPerKg (s : LAESSimulator) (dt_s : ℝ) : ℝ :=
  let air_rate_kg_s := s.cfg.charge_power_kW * 1000 / s.liq_no_cold.net_work_J_per_kg
  let air_processed_kg := air_rate_kg_s * dt_s
  if 0 < s.cold_storage.energy_J ∧ 0 < air_processed_kg then
    min (s.cold_storage.energy_J / air_processed_kg) 150000
  else 0

/-- `liq_result` of the charge step (line 250). -/
def chargeLiqResult (s : LAESSimulator) (dt_s : ℝ) : LiqResult :=
  calculateLiquefaction s.cfg s.prov (chargeColdPerKg s dt_s)

/-- `air_processed` of the charge step (lines 253–254). -/
def chargeAirProcessed (s : LAESSimulator) (dt_s : ℝ) : ℝ :=
  s.cfg.charge_power_kW * 1000 * dt_s / (chargeLiqResult s dt_s).net_work_J_per_kg

/-- `liquid_produced` of the charge step (line 255): the mass produced by
the cycle, before the tank clamp. -/
def chargeLiquidProduced (s : LAESSimulator) (dt_s : ℝ) : ℝ :=
  chargeAirProcessed s dt_s * (chargeLiqResult s dt_s).liquid_yield

/-- `_execute_charge` (simulation.py lines 231–271): runs the liquefaction
cycle with cold drawn from the cold store, stores the (clamped) liquid in
the tank, the rejected heat in the hot store, withdraws the used cold, and
records `energy_in_kWh = power_kW · dt_hours` unconditionally. -/
def executeCharge (s : LAESSimulator) (step : TimeStepData) (dt_s dt_hours : ℝ) :
    TimeStepData × LAESSimulator :=
  let power_kW := s.cfg.charge_power_kW
  let liq_result := chargeLiqResult s dt_s
  let air_processed := chargeAirProcessed s dt_s
  let tc := s.tank.charge (chargeLiquidProduced s dt_s)
  let hc := s.hot_storage.charge (liq_result.heat_rejected_J_per_kg * air_processed)
  let cd := s.cold_storage.discharge (liq_result.cold_used_J_per_kg * air_processed)
  let energy_in_kWh := power_kW * dt_hours
  ({ step with
      power_in_kW := power_kW
      liquid_produced_kg := tc.1
      energy_in_kWh := energy_in_kWh },
    { s with
      tank := tc.2
      hot_storage := hc.2
      cold_storage := cd.2
      total_energy_in_kWh := s.total_energy_in_kWh + energy_in_kWh })

/-! ### `_execute_discharge` (simulation.py lines 273–306) -/

/-- `liquid_needed` (lines 277–279). -/
def dischargeLiquidNeeded (s : LAESSimulator) (dt_s : ℝ) : ℝ :=
  let liquid_rate_kg_s := s.cfg.discharge_power_kW * 1000 / s.specific_output
  liquid_rate_kg_s * dt_s

/-- `liquid_consumed` (line 282): the clamped tank withdrawal. -/
def dischargeLiquidConsumed (s : LAESSimulator) (dt_s : ℝ) : ℝ :=
  (s.tank.discharge (dischargeLiquidNeeded s dt_s)).1

/-- `heat_needed_J` (line 291). -/
def dischargeHeatNeeded (s : LAESSimulator) (dt_s : ℝ) : ℝ :=
  s.heat_per_kg_discharge * dischargeLiquidConsumed s dt_s

/-- `heat_delivered` (line 292): the clamped hot-store withdrawal. -/
def dischargeHeatDelivered (s : LAESSimulator) (dt_s : ℝ) : ℝ :=
  (s.hot_storage.discharge (dischargeHeatNeeded s dt_s)).1

/-- `_execute_discharge` (simulation.py lines 273–306): withdraw the needed
liquid (clamped), throttle power by the withdrawal fraction, withdraw heat,
throttle further by the heat fraction when delivered heat is below 90% of
required, deposit the generated cold, and record
`energy_out_kWh = actual_power_kW · dt_hours`. -/
def executeDischarge (s : LAESSimulator) (step : TimeStepData) (dt_s dt_hours : ℝ) :
    TimeStepData × LAESSimulator :=
  let target_power_kW := s.cfg.discharge_power_kW
  let liquid_needed := dischargeLiquidNeeded s dt_s
  let td := s.tank.discharge liquid_needed
  let liquid_consumed := td.1
  let power_fraction := if 0 < liquid_needed then liquid_consumed / liquid_needed else 0
  let heat_needed_J := dischargeHeatNeeded s dt_s
  let hd := s.hot_storage.discharge heat_needed_J
  let heat_delivered := hd.1
  let actual_power_kW :=
    if heat_delivered < heat_needed_J * 0.9 ∧ 0 < heat_needed_J then
      target_power_kW * power_fraction * (heat_delivered / heat_needed_J)
    else
      target_power_kW * power_fraction
  let cold_generated_J := s.cold_per_kg * liquid_consumed
  let cc := s.cold_storage.charge cold_generated_J
  let energy_out_kWh := actual_power_kW * dt_hours
  ({ step with
      liquid_consumed_kg := liquid_consumed
      power_out_kW := actual_power_kW
      energy_out_kWh := energy_out_kWh },
    { s with
      tank := td.2
      hot_storage := hd.2
      cold_storage := cc.2
      total_energy_out_kWh := s.total_energy_out_kWh + energy_out_kWh })

/-! ## Helper lemmas for the storage invariant -/

/-- Every `ThermalStorage` operation leaves the constructor-set fields
(capacity, efficiencies, loss rate) unchanged. -/
lemma tsApplyOp_const (s : ThermalStorage) (op : TSOp) :
    (s.applyOp op).capacity_J = s.capacity_J ∧
    (s.applyOp op).charge_eff = s.charge_eff ∧
    (s.applyOp op).discharge_eff = s.discharge_eff ∧
    (s.applyOp op).loss_rate = s.loss_rate := by
  cases op <;>
    simp [ThermalStorage.applyOp, ThermalStorage.charge, ThermalStorage.discharge,
      ThermalStorage.applyLosses]

/-- One `ThermalStorage` operation with non-negative arguments preserves
`0 ≤ energy ≤ capacity`. -/
lemma tsApplyOp_inv (s : ThermalStorage) (op : TSOp) (hop : op.argsNonneg)
    (hce : 0 ≤ s.charge_eff) (hde : 0 ≤ s.discharge_eff) (hlr : 0 ≤ s.loss_rate)
    (h0 : 0 ≤ s.energy_J) (h1 : s.energy_J ≤ s.capacity_J) :
    0 ≤ (s.applyOp op).energy_J ∧ (s.applyOp op).energy_J ≤ (s.applyOp op).capacity_J := by
  cases op with
  | charge e =>
      simp only [ThermalStorage.applyOp, ThermalStorage.charge, TSOp.argsNonneg] at hop ⊢
      have hmin₀ : 0 ≤ min (e * s.charge_eff) (s.capacity_J - s.energy_J) :=
        le_min (mul_nonneg hop hce) (by linarith)
      have hmin₁ : min (e * s.charge_eff) (s.capacity_J - s.energy_J) ≤
          s.capacity_J - s.energy_J := min_le_right _ _
      constructor <;> linarith
  | discharge e =>
      simp only [ThermalStorage.applyOp, ThermalStorage.discharge, TSOp.argsNonneg] at hop ⊢
      have hmin₀ : 0 ≤ min (e / s.discharge_eff) s.energy_J :=
        le_min (div_nonneg hop hde) h0
      have hmin₁ : min (e / s.discharge_eff) s.energy_J ≤ s.energy_J := min_le_right _ _
      constructor <;> linarith
  | applyLosses dt =>
      simp only [ThermalStorage.applyOp, ThermalStorage.applyLosses, TSOp.argsNonneg] at hop ⊢
      have hexp₀ : (0:ℝ) ≤ Real.exp (-s.loss_rate * dt) := (Real.exp_pos _).le
      have hexp₁ : Real.exp (-s.loss_rate * dt) ≤ 1 := by
        rw [← Real.exp_zero]
        exact Real.exp_le_exp.mpr (by nlinarith)
      constructor
      · exact mul_nonneg h0 hexp₀
      · calc s.energy_J * Real.exp (-s.loss_rate * dt) ≤ s.energy_J * 1 :=
              mul_le_mul_of_nonneg_left hexp₁ h0
          _ ≤ s.capacity_J := by linarith

/-- `runOps` leaves the constructor-set fields of a `ThermalStorage` unchanged. -/
lemma tsRunOps_const (ops : List TSOp) :
    ∀ s : ThermalStorage,
      (ThermalStorage.runOps ops s).capacity_J = s.capacity_J ∧
      (ThermalStorage.runOps ops s).charge_eff = s.charge_eff ∧
      (ThermalStorage.runOps ops s).discharge_eff = s.discharge_eff ∧
      (ThermalStorage.runOps ops s).loss_rate = s.loss_rate := by
  induction ops with
  | nil => intro s; exact ⟨rfl, rfl, rfl, rfl⟩
  | cons op ops ih =>
      intro s
      have h₁ := tsApplyOp_const s op
      have h₂ := ih (s.applyOp op)
      exact ⟨h₂.1.trans h₁.1, h₂.2.1.trans h₁.2.1, h₂.2.2.1.trans h₁.2.2.1,
        h₂.2.2.2.trans h₁.2.2.2⟩

/-- Any sequence of non-negative-argument `ThermalStorage` operations
preserves `0 ≤ energy ≤ capacity`. -/
lemma tsRunOps_inv (ops : List TSOp) :
    ∀ s : ThermalStorage, (∀ op ∈ ops, op.argsNonneg) →
      0 ≤ s.charge_eff → 0 ≤ s.discharge_eff → 0 ≤ s.loss_rate →
      0 ≤ s.energy_J → s.energy_J ≤ s.capacity_J →
      0 ≤ (ThermalStorage.runOps ops s).energy_J ∧
        (ThermalStorage.runOps ops s).energy_J ≤ (ThermalStorage.runOps ops s).capacity_J := by
  induction ops with
  | nil => intro s _ _ _ _ h0 h1; exact ⟨h0, h1⟩
  | cons op ops ih =>
      intro s hops hce hde hlr h0 h1
      have hconst := tsApplyOp_const s op
      have hstep := tsApplyOp_inv s op (hops op (List.mem_cons_self _ _))
        hce hde hlr h0 h1
      have hstep' : (s.applyOp op).energy_J ≤ (s.applyOp op).capacity_J := by
        have := hstep.2
        rwa [hconst.1] at this ⊢
      exact ih (s.applyOp op) (fun o ho => hops o (List.mem_cons_of_mem _ ho))
        (by rw [hconst.2.1]; exact hce) (by rw [hconst.2.2.1]; exact hde)
        (by rw [hconst.2.2.2]; exact hlr) hstep.1 hstep.2

/-- Every `LiquidAirTank` operation leaves the constructor-set fields
(capacity, minimum level fraction, boil-off rate) unchanged. -/
lemma tankApplyOp_const (t : LiquidAirTank) (op : TankOp) :
    (t.applyOp op).capacity_kg = t.capacity_kg ∧
    (t.applyOp op).min_level_frac = t.min_level_frac ∧
    (t.applyOp op).boiloff_rate = t.boiloff_rate := by
  cases op <;>
    simp [LiquidAirTank.applyOp, LiquidAirTank.charge, LiquidAirTank.discharge,
      LiquidAirTank.applyBoiloff]

/-- One `LiquidAirTank` operation with non-negative arguments preserves
`0 ≤ mass ≤ capacity`. -/
lemma tankApplyOp_inv (t : LiquidAirTank) (op : TankOp) (hop : op.argsNonneg)
    (hfr : 0 ≤ t.min_level_frac) (hbr : 0 ≤ t.boiloff_rate)
    (h0 : 0 ≤ t.mass_kg) (h1 : t.mass_kg ≤ t.capacity_kg) :
    0 ≤ (t.applyOp op).mass_kg ∧ (t.applyOp op).mass_kg ≤ (t.applyOp op).capacity_kg := by
  have hcap : 0 ≤ t.capacity_kg := h0.trans h1
  cases op with
  | charge m =>
      simp only [LiquidAirTank.applyOp, LiquidAirTank.charge, TankOp.argsNonneg] at hop ⊢
      have hmin₀ : 0 ≤ min m (t.capacity_kg - t.mass_kg) := le_min hop (by linarith)
      have hmin₁ : min m (t.capacity_kg - t.mass_kg) ≤ t.capacity_kg - t.mass_kg :=
        min_le_right _ _
      constructor <;> linarith
  | discharge m =>
      simp only [LiquidAirTank.applyOp, LiquidAirTank.discharge, LiquidAirTank.available_kg,
        TankOp.argsNonneg] at hop ⊢
      have havail : max 0 (t.mass_kg - t.min_level_frac * t.capacity_kg) ≤ t.mass_kg :=
        max_le h0 (by nlinarith)
      have hmin₀ : 0 ≤ min m (max 0 (t.mass_kg - t.min_level_frac * t.capacity_kg)) :=
        le_min hop (le_max_left _ _)
      have hmin₁ : min m (max 0 (t.mass_kg - t.min_level_frac * t.capacity_kg)) ≤ t.mass_kg :=
        (min_le_right _ _).trans havail
      constructor <;> linarith
  | applyBoiloff dt =>
      simp only [LiquidAirTank.applyOp, LiquidAirTank.applyBoiloff, TankOp.argsNonneg] at hop ⊢
      have hexp₀ : (0:ℝ) ≤ Real.exp (-t.boiloff_rate * dt) := (Real.exp_pos _).le
      have hexp₁ : Real.exp (-t.boiloff_rate * dt) ≤ 1 := by
        rw [← Real.exp_zero]
        exact Real.exp_le_exp.mpr (by nlinarith)
      constructor
      · exact mul_nonneg h0 hexp₀
      · calc t.mass_kg * Real.exp (-t.boiloff_rate * dt) ≤ t.mass_kg * 1 :=
              mul_le_mul_of_nonneg_left hexp₁ h0
          _ ≤ t.capacity_kg := by linarith

/-- Any sequence of non-negative-argument `LiquidAirTank` operations
preserves `0 ≤ mass ≤ capacity`. -/
lemma tankRunOps_inv (ops : List TankOp) :
    ∀ t : LiquidAirTank, (∀ op ∈ ops, op.argsNonneg) →
      0 ≤ t.min_level_frac → 0 ≤ t.boiloff_rate →
      0 ≤ t.mass_kg → t.mass_kg ≤ t.capacity_kg →
      0 ≤ (LiquidAirTank.runOps ops t).mass_kg ∧
        (LiquidAirTank.runOps ops t).mass_kg ≤ (LiquidAirTank.runOps ops t).capacity_kg := by
  induction ops with
  | nil => intro t _ _ _ h0 h1; exact ⟨h0, h1⟩
  | cons op ops ih =>
      intro t hops hfr hbr h0 h1
      have hconst := tankApplyOp_const t op
      have hstep := tankApplyOp_inv t op (hops op (List.mem_cons_self _ _))
        hfr hbr h0 h1
      exact ih (t.applyOp op) (fun o ho => hops o (List.mem_cons_of_mem _ ho))
        (by rw [hconst.2.1]; exact hfr) (by rw [hconst.2.2]; exact hbr)
        hstep.1 hstep.2

/-- `runOps` leaves the capacity of a `LiquidAirTank` unchanged. -/
lemma tankRunOps_capacity (ops : List TankOp) :
    ∀ t : LiquidAirTank, (LiquidAirTank.runOps ops t).capacity_kg = t.capacity_kg := by
  induction ops with
  | nil => intro t; rfl
  | cons op ops ih =>
      intro t
      exact (ih (t.applyOp op)).trans (tankApplyOp_const t op).1

/-- C1.  For every sequence of `charge` / `discharge` / `apply_losses` /
`apply_boiloff` operations with non-negative arguments, starting from a
freshly constructed store with non-negative capacity (and non-negative
loss rate, efficiency, minimum-level fraction and boil-off rate, the
constructor arguments of the two classes), the invariants
`0 ≤ ThermalStorage.energy_J ≤ capacity` and
`0 ≤ LiquidAirTank.mass_kg ≤ capacity` hold after the sequence (hence
after every operation, since every prefix is itself such a sequence);
the bounds are enforced by the `min` / `max` clamps and all operations
are total functions — none raises an error. -/
theorem laes_C1 :
    (∀ (cap loss eff : ℝ) (ops : List TSOp),
      0 ≤ cap → 0 ≤ loss → 0 ≤ eff → (∀ op ∈ ops, op.argsNonneg) →
      0 ≤ (ThermalStorage.runOps ops (ThermalStorage.init cap loss eff)).energy_J ∧
        (ThermalStorage.runOps ops (ThermalStorage.init cap loss eff)).energy_J ≤ cap) ∧
    (∀ (cap frac rate : ℝ) (ops : List TankOp),
      0 ≤ cap → 0 ≤ frac → 0 ≤ rate → (∀ op ∈ ops, op.argsNonneg) →
      0 ≤ (LiquidAirTank.runOps ops (LiquidAirTank.init cap frac rate)).mass_kg ∧
        (LiquidAirTank.runOps ops (LiquidAirTank.init cap frac rate)).mass_kg ≤ cap) := by
  constructor
  · intro cap loss eff ops hcap hloss _ hops
    have h := tsRunOps_inv ops (ThermalStorage.init cap loss eff) hops
      (Real.sqrt_nonneg _) (Real.sqrt_nonneg _) hloss le_rfl hcap
    refine ⟨h.1, ?_⟩
    have hc := (tsRunOps_const ops (ThermalStorage.init cap loss eff)).1
    rw [hc] at h
    exact h.2
  · intro cap frac rate ops hcap hfrac hrate hops
    have h := tankRunOps_inv ops (LiquidAirTank.init cap frac rate) hops
      hfrac hrate le_rfl hcap
    refine ⟨h.1, ?_⟩
    have hc := tankRunOps_capacity ops (LiquidAirTank.init cap frac rate)
    rw [hc] at h
    exact h.2

/-- Witness for C1: a concrete operation sequence on each store. -/
theorem laes_C1_witness :
    ((0:ℝ) ≤ 10 ∧ (0:ℝ) ≤ 0 ∧ (0:ℝ) ≤ 1 ∧
      (∀ op ∈ [TSOp.charge 5, TSOp.discharge 2, TSOp.applyLosses 3], op.argsNonneg) ∧
      0 ≤ (ThermalStorage.runOps [TSOp.charge 5, TSOp.discharge 2, TSOp.applyLosses 3]
            (ThermalStorage.init 10 0 1)).energy_J ∧
      (ThermalStorage.runOps [TSOp.charge 5, TSOp.discharge 2, TSOp.applyLosses 3]
            (ThermalStorage.init 10 0 1)).energy_J ≤ 10) ∧
    ((∀ op ∈ [TankOp.charge 7, TankOp.discharge 4, TankOp.applyBoiloff 3], op.argsNonneg) ∧
      0 ≤ (LiquidAirTank.runOps [TankOp.charge 7, TankOp.discharge 4, TankOp.applyBoiloff 3]
            (LiquidAirTank.init 10 0.1 0)).mass_kg ∧
      (LiquidAirTank.runOps [TankOp.charge 7, TankOp.discharge 4, TankOp.applyBoiloff 3]
            (LiquidAirTank.init 10 0.1 0)).mass_kg ≤ 10) := by
  have hts : ∀ op ∈ [TSOp.charge 5, TSOp.discharge 2, TSOp.applyLosses 3],
      op.argsNonneg := by
    intro op hop
    fin_cases hop <;> norm_num [TSOp.argsNonneg]
  have htk : ∀ op ∈ [TankOp.charge 7, TankOp.discharge 4, TankOp.applyBoiloff 3],
      op.argsNonneg := by
    intro op hop
    fin_cases hop <;> norm_num [TankOp.argsNonneg]
  have h₁ := laes_C1.1 10 0 1 [TSOp.charge 5, TSOp.discharge 2, TSOp.applyLosses 3]
    (by norm_num) (by norm_num) (by norm_num) hts
  have h₂ := laes_C1.2 10 0.1 0 [TankOp.charge 7, TankOp.discharge 4, TankOp.applyBoiloff 3]
    (by norm_num) (by norm_num) (by norm_num) htk
  exact ⟨⟨by norm_num, le_rfl, by norm_num, hts, h₁.1, h₁.2⟩, ⟨htk, h₂.1, h₂.2⟩⟩

/-- C3.  Round-trip law: charging `E` into an empty
`ThermalStorage(capacity=1e9, loss=0, efficiency=η)` with `0 < E` within
capacity headroom and `0 < η ≤ 1`, then discharging any request at least
as large as the stored energy, delivers `η·E` (exactly, hence within the
claimed 5%): charge and discharge each apply the factor `√η`. -/
theorem laes_C3 (E eta R : ℝ) (hE : 0 < E) (hcap : E ≤ 1e9) (heta0 : 0 < eta)
    (heta1 : eta ≤ 1)
    (hR : ((ThermalStorage.init 1e9 0 eta).charge E).2.energy_J ≤ R) :
    |((((ThermalStorage.init 1e9 0 eta).charge E).2.discharge R).1 - eta * E)| ≤
      0.05 * (eta * E) := by
  have hsq1 : Real.sqrt eta ≤ 1 := Real.sqrt_le_one.mpr heta1
  have hsq0 : 0 ≤ Real.sqrt eta := Real.sqrt_nonneg eta
  have hsqpos : 0 < Real.sqrt eta := Real.sqrt_pos.mpr heta0
  have hself : Real.sqrt eta * Real.sqrt eta = eta := Real.mul_self_sqrt heta0.le
  have hetasq : eta ≤ Real.sqrt eta := by
    nlinarith [mul_le_mul_of_nonneg_left hsq1 hsq0]
  have hstored : ((ThermalStorage.init 1e9 0 eta).charge E).2.energy_J =
      E * Real.sqrt eta := by
    simp only [ThermalStorage.charge, ThermalStorage.init, zero_add, sub_zero]
    exact min_eq_left (by nlinarith)
  have hkey : ((((ThermalStorage.init 1e9 0 eta).charge E).2.discharge R).1 = eta * E) := by
    simp only [ThermalStorage.discharge]
    have hde : ((ThermalStorage.init 1e9 0 eta).charge E).2.discharge_eff =
        Real.sqrt eta := rfl
    rw [hde, hstored]
    rw [hstored] at hR
    have hEeta : E * eta ≤ R :=
      (mul_le_mul_of_nonneg_left hetasq hE.le).trans hR
    have hmin : min (R / Real.sqrt eta) (E * Real.sqrt eta) = E * Real.sqrt eta := by
      refine min_eq_right ?_
      rw [le_div_iff₀ hsqpos, mul_assoc, hself]
      exact hEeta
    rw [hmin, mul_assoc, hself]
    ring
  rw [hkey]
  simp only [sub_self, abs_zero]
  positivity

/-- Witness for C3: `E = 4`, `η = 1`, discharge request `4`. -/
theorem laes_C3_witness :
    (0:ℝ) < 4 ∧ (4:ℝ) ≤ 1e9 ∧ (0:ℝ) < 1 ∧ (1:ℝ) ≤ 1 ∧
      ((ThermalStorage.init 1e9 0 1).charge 4).2.energy_J ≤ 4 ∧
      |((((ThermalStorage.init 1e9 0 1).charge 4).2.discharge 4).1 - 1 * 4)| ≤
        0.05 * (1 * 4) := by
  have hstored : ((ThermalStorage.init 1e9 0 1).charge 4).2.energy_J ≤ 4 := by
    simp only [ThermalStorage.charge, ThermalStorage.init, Real.sqrt_one, zero_add, sub_zero,
      mul_one]
    exact min_le_left _ _
  exact ⟨by norm_num, by norm_num, by norm_num, le_rfl, hstored,
    laes_C3 4 1 4 (by norm_num) (by norm_num) (by norm_num) le_rfl hstored⟩

/-- C5.  `Tank.discharge` returns exactly
`min(request, max(0, mass − min_level_fraction·capacity))`, never takes the
mass below `min(mass, min_level_fraction·capacity)` (so a mass at or above
the reserve never drops below it), and the concrete scenario
`Tank(100000, 0.1, 0)`, `charge(50000)`, `discharge(100000)` discharges
exactly 40000. -/
theorem laes_C5 :
    (∀ (t : LiquidAirTank) (mass_kg : ℝ),
        (t.discharge mass_kg).1 =
          min mass_kg (max 0 (t.mass_kg - t.min_level_frac * t.capacity_kg))) ∧
    (∀ (t : LiquidAirTank) (mass_kg : ℝ),
        min t.mass_kg (t.min_level_frac * t.capacity_kg) ≤ (t.discharge mass_kg).2.mass_kg) ∧
    (((LiquidAirTank.init 100000 0.1 0).charge 50000).2.discharge 100000).1 = 40000 := by
  refine ⟨fun t m => rfl, fun t m => ?_, ?_⟩
  · simp only [LiquidAirTank.discharge, LiquidAirTank.available_kg]
    have h₁ : min m (max 0 (t.mass_kg - t.min_level_frac * t.capacity_kg)) ≤
        max 0 (t.mass_kg - t.min_level_frac * t.capacity_kg) := min_le_right _ _
    have h₂ : t.mass_kg - max 0 (t.mass_kg - t.min_level_frac * t.capacity_kg) =
        min t.mass_kg (t.min_level_frac * t.capacity_kg) := by
      rcases le_total t.mass_kg (t.min_level_frac * t.capacity_kg) with h | h
      · rw [max_eq_left (by linarith), min_eq_left h]
        ring
      · rw [max_eq_right (by linarith), min_eq_right h]
        ring
    linarith
  · simp only [LiquidAirTank.discharge, LiquidAirTank.charge, LiquidAirTank.available_kg,
      LiquidAirTank.init, zero_add, sub_zero]
    norm_num [min_def, max_def]

/-! ## Helper lemmas and concrete providers for the cycle solvers -/

/-- A degenerate provider whose lookups all return `0` and whose quality
query returns a fixed answer `q`; used to exercise the solver's control
flow on concrete inputs. -/
def constProvider (q : Option ℝ) : AirProvider :=
  { H_TP := fun _ _ => 0
    S_TP := fun _ _ => 0
    H_SP := fun _ _ => 0
    T_HP := fun _ _ => 0
    T_PQ := fun _ _ => 0
    H_PQ := fun _ _ => 0
    D_TP := fun _ _ => 0
    Q_PH := fun _ _ => q }

/-- The liquid yield is `main_frac · liquid_fraction_jt`
(thermodynamics.py line 292). -/
lemma calculateLiquefaction_yield (cfg : PlantConfig) (prov : AirProvider) (c : ℝ) :
    (calculateLiquefaction cfg prov c).liquid_yield =
      (1 - cfg.bypass_fraction) * (jtStep (jtQuality cfg prov c)).1 := rfl

/-- The warning flag comes from the J-T `try/except` block. -/
lemma calculateLiquefaction_warned (cfg : PlantConfig) (prov : AirProvider) (c : ℝ) :
    (calculateLiquefaction cfg prov c).warned = (jtStep (jtQuality cfg prov c)).2 := rfl

/-- `cold_used` comes from the cold-store HX branch. -/
lemma calculateLiquefaction_cold_used (cfg : PlantConfig) (prov : AirProvider) (c : ℝ) :
    (calculateLiquefaction cfg prov c).cold_used_J_per_kg = (coldStep cfg prov c).2 := rfl

/-- `specific_consumption = net_work / liquid_yield if liquid_yield > 0
else float('inf')` (thermodynamics.py line 296). -/
lemma calculateLiquefaction_sc (cfg : PlantConfig) (prov : AirProvider) (c : ℝ) :
    (calculateLiquefaction cfg prov c).specific_consumption_J_per_kg =
      if 0 < (calculateLiquefaction cfg prov c).liquid_yield then
        some ((calculateLiquefaction cfg prov c).net_work_J_per_kg /
          (calculateLiquefaction cfg prov c).liquid_yield)
      else none := rfl

/-- C4 (amended).  In the liquefaction solver: a failed throttle-outlet
query or a quality above 1 zeroes the liquid yield and surfaces a warning;
a quality below 0 zeroes the liquid yield silently (no warning is issued);
the reported specific consumption is `+∞` exactly when the yield is 0, and
otherwise equals net work divided by liquid yield.  The call always
returns a result — it never aborts. -/
theorem laes_C4_amended (cfg : PlantConfig) (prov : AirProvider) (cold : ℝ) :
    (jtQuality cfg prov cold = none →
        (calculateLiquefaction cfg prov cold).liquid_yield = 0 ∧
          (calculateLiquefaction cfg prov cold).warned) ∧
    (∀ x : ℝ, jtQuality cfg prov cold = some x → 1 < x →
        (calculateLiquefaction cfg prov cold).liquid_yield = 0 ∧
          (calculateLiquefaction cfg prov cold).warned) ∧
    (∀ x : ℝ, jtQuality cfg prov cold = some x → x < 0 →
        (calculateLiquefaction cfg prov cold).liquid_yield = 0 ∧
          ¬ (calculateLiquefaction cfg prov cold).warned) ∧
    ((calculateLiquefaction cfg prov cold).liquid_yield = 0 →
        (calculateLiquefaction cfg prov cold).specific_consumption_J_per_kg = none) ∧
    (0 < (calculateLiquefaction cfg prov cold).liquid_yield →
        (calculateLiquefaction cfg prov cold).specific_consumption_J_per_kg =
          some ((calculateLiquefaction cfg prov cold).net_work_J_per_kg /
            (calculateLiquefaction cfg prov cold).liquid_yield)) := by
  refine ⟨?_, ?_, ?_, ?_, ?_⟩
  · intro hq
    rw [calculateLiquefaction_yield, calculateLiquefaction_warned, hq]
    simp [jtStep]
  · intro x hq hx
    rw [calculateLiquefaction_yield, calculateLiquefaction_warned, hq]
    have hcond : ¬ (0 ≤ x ∧ x ≤ 1) := by
      rintro ⟨-, h1⟩
      linarith
    simp only [jtStep, if_neg hcond]
    exact ⟨mul_zero _, hx⟩
  · intro x hq hx
    rw [calculateLiquefaction_yield, calculateLiquefaction_warned, hq]
    have hcond : ¬ (0 ≤ x ∧ x ≤ 1) := by
      rintro ⟨h0, -⟩
      linarith
    simp only [jtStep, if_neg hcond]
    exact ⟨mul_zero _, by intro h; linarith⟩
  · intro hy
    rw [calculateLiquefaction_sc, if_neg]
    rw [hy]
    exact lt_irrefl 0
  · intro hy
    rw [calculateLiquefaction_sc, if_pos hy]

/-- Counterexample to C4 as stated: with a throttle-outlet quality of −1
(outside `[0,1]`, as CoolProp reports for a state outside the two-phase
dome) the liquid yield is zeroed but **no** warning is surfaced — the
source warns only for `quality > 1` or a raised lookup
(thermodynamics.py lines 271–280). -/
theorem laes_C4_counterexample :
    jtQuality defaultConfig (constProvider (some (-1))) 0 = some (-1) ∧
    ((-1:ℝ) < 0) ∧
    (calculateLiquefaction defaultConfig (constProvider (some (-1))) 0).liquid_yield = 0 ∧
    ¬ (calculateLiquefaction defaultConfig (constProvider (some (-1))) 0).warned := by
  have hq : jtQuality defaultConfig (constProvider (some (-1))) 0 = some (-1) := rfl
  have hcond : ¬ ((0:ℝ) ≤ -1 ∧ (-1:ℝ) ≤ 1) := by
    rintro ⟨h, -⟩
    linarith
  refine ⟨hq, by norm_num, ?_, ?_⟩
  · rw [calculateLiquefaction_yield, hq]
    simp only [jtStep, if_neg hcond]
    exact mul_zero _
  · rw [calculateLiquefaction_warned, hq]
    simp only [jtStep, if_neg hcond]
    norm_num

/-- Witness for C4 (amended): a quality of 2 zeroes the yield and warns. -/
theorem laes_C4_witness :
    jtQuality defaultConfig (constProvider (some 2)) 0 = some 2 ∧ ((1:ℝ) < 2) ∧
    ((calculateLiquefaction defaultConfig (constProvider (some 2)) 0).liquid_yield = 0 ∧
      (calculateLiquefaction defaultConfig (constProvider (some 2)) 0).warned) :=
  ⟨rfl, by norm_num,
    (laes_C4_amended defaultConfig (constProvider (some 2)) 0).2.1 2 rfl (by norm_num)⟩

/-- C6.  Whenever a positive recycled-cold amount is supplied, the
cold-store HX clamps the enthalpy removal: the post-cold enthalpy never
drops below the enthalpy `h_min` at the floor temperature (2 K above the
saturation temperature at the high pressure), the reported `cold_used`
equals the enthalpy actually removed
(`h_before_cold − h_after_cold`), and it is at most the supplied cold. -/
theorem laes_C6 (cfg : PlantConfig) (prov : AirProvider) (cold : ℝ) (hcold : 0 < cold) :
    (calculateLiquefaction cfg prov cold).cold_used_J_per_kg =
        hBeforeCold cfg prov - hAfterCold cfg prov cold ∧
    hMinSafe cfg prov ≤ hAfterCold cfg prov cold ∧
    (calculateLiquefaction cfg prov cold).cold_used_J_per_kg ≤ cold := by
  have hstep : (coldStep cfg prov cold).2 =
      hBeforeCold cfg prov - hAfterCold cfg prov cold := by
    rw [coldStep, if_pos hcold]
  have hcu := (calculateLiquefaction_cold_used cfg prov cold).trans hstep
  refine ⟨hcu, le_max_right _ _, ?_⟩
  rw [hcu]
  have h := le_max_left (hBeforeCold cfg prov - cold) (hMinSafe cfg prov)
  have h' : hBeforeCold cfg prov - cold ≤ hAfterCold cfg prov cold := h
  linarith

/-- Witness for C6 at `cold = 5` with the degenerate provider. -/
theorem laes_C6_witness :
    (0:ℝ) < 5 ∧
    ((calculateLiquefaction defaultConfig (constProvider none) 5).cold_used_J_per_kg =
        hBeforeCold defaultConfig (constProvider none) -
          hAfterCold defaultConfig (constProvider none) 5 ∧
      hMinSafe defaultConfig (constProvider none) ≤
        hAfterCold defaultConfig (constProvider none) 5 ∧
      (calculateLiquefaction defaultConfig (constProvider none) 5).cold_used_J_per_kg ≤ 5) :=
  ⟨by norm_num, laes_C6 defaultConfig (constProvider none) 5 (by norm_num)⟩

/-- C9.  Whenever the no-cold liquefaction run yields zero liquid (so its
specific consumption is `+∞` and `rte_no_cold` is `0`), `calculate_rte`
fails with an (uncaught) division-by-zero error while computing
`improvement_pct = (rte_with_cold / rte_no_cold − 1)·100` — the call
does not return a degraded result.  The raised `ZeroDivisionError` is
embedded as the `none` result of `calculateRte`. -/
theorem laes_C9 (cfg : PlantConfig) (prov : AirProvider)
    (h : (calculateLiquefaction cfg prov 0).liquid_yield = 0) :
    calculateRte cfg prov = none := by
  have hsc : (calculateLiquefaction cfg prov 0).specific_consumption_J_per_kg = none := by
    rw [calculateLiquefaction_sc, if_neg]
    rw [h]
    exact lt_irrefl 0
  have hpy : ∀ v : ℝ, pydiv v 0 = none := fun v => by rw [pydiv, if_pos rfl]
  simp [calculateRte, hsc, divBySC, hpy]

/-- Witness for C9: a provider whose quality query always raises gives a
zero no-cold yield, and `calculate_rte` then raises. -/
theorem laes_C9_witness :
    (calculateLiquefaction defaultConfig (constProvider none) 0).liquid_yield = 0 ∧
    calculateRte defaultConfig (constProvider none) = none := by
  have hy : (calculateLiquefaction defaultConfig (constProvider none) 0).liquid_yield = 0 := by
    rw [calculateLiquefaction_yield]
    have hq : jtQuality defaultConfig (constProvider none) 0 = none := rfl
    rw [hq]
    simp [jtStep]
  exact ⟨hy, laes_C9 defaultConfig (constProvider none) hy⟩

/-! ## Claims about `PlantConfig` construction and the simulator steps -/

/-- `PlantConfig(charge_power_MW=-5)`: an invalid parameter set (a
non-positive power rating). -/
def badConfig : PlantConfig := { charge_power_MW := -5 }

/-- Counterexample to C7 as stated: constructing `PlantConfig` with a
non-positive power rating does **not** fail — the dataclass has no
validation (no `__post_init__`), so the construction produces a fully
usable configuration object whose derived properties are computed from
the invalid field. -/
theorem laes_C7_counterexample :
    ¬ specConfigValid badConfig ∧
    badConfig.charge_power_MW = -5 ∧
    badConfig.charge_power_kW = -5000 ∧
    badConfig.tank_capacity_kg = 200000 := by
  refine ⟨?_, rfl, ?_, ?_⟩
  · intro h
    have h1 : (0:ℝ) < -5 := h.1
    linarith
  · norm_num [badConfig, PlantConfig.charge_power_kW]
  · norm_num [badConfig, PlantConfig.tank_capacity_kg]

/-- C7 (amended).  `PlantConfig` performs no construction-time validation:
every field assignment — including non-positive powers, out-of-range
efficiencies or zero stage counts — is accepted, and all derived
properties are total functions of the stored fields, computed with no
validity precondition.  (The spec's validity requirement is the separate
predicate `specConfigValid`, which the source never checks.) -/
theorem laes_C7_amended (c : PlantConfig) :
    c.charge_power_kW = c.charge_power_MW * 1000 ∧
    c.discharge_power_kW = c.discharge_power_MW * 1000 ∧
    c.tank_capacity_kg = c.tank_capacity_tonnes * 1000 ∧
    c.P_charge_Pa = c.P_charge_bar * 1e5 ∧
    c.P_discharge_Pa = c.P_discharge_bar * 1e5 ∧
    c.T_ambient_K = c.T_ambient_C + 273.15 ∧
    c.storage_capacity_MWh = c.discharge_power_MW * c.storage_duration_hours :=
  ⟨rfl, rfl, rfl, rfl, rfl, rfl, rfl⟩

/-- C10.  In every charge step of the simulator: the recorded
`energy_in_kWh` equals the full configured charge power times the step
duration, unconditionally — for every simulator state, including a full
tank where some or all of `chargeLiquidProduced` is clamped away; the
recorded `liquid_produced_kg` is the clamped, actually-stored mass
`min(produced, capacity − mass)`, not the mass produced; and the
cumulative energy-in total grows by the same full amount. -/
theorem laes_C10 (s : LAESSimulator) (step : TimeStepData) (dt_s dt_hours : ℝ) :
    (executeCharge s step dt_s dt_hours).1.energy_in_kWh =
      s.cfg.charge_power_kW * dt_hours ∧
    (executeCharge s step dt_s dt_hours).1.liquid_produced_kg =
      min (chargeLiquidProduced s dt_s) (s.tank.capacity_kg - s.tank.mass_kg) ∧
    (executeCharge s step dt_s dt_hours).2.total_energy_in_kWh =
      s.total_energy_in_kWh + s.cfg.charge_power_kW * dt_hours :=
  ⟨rfl, rfl, rfl⟩

/-- C8.  In every discharge step (with a positive liquid requirement, a
non-negative hot store and non-negative specific heat requirement): the
delivered power is the configured discharge power scaled by the fraction
of the required liquid actually withdrawn, additionally scaled by the
heat-availability fraction exactly when the delivered heat is below 90%
of the required heat; and the recorded step energy out equals the
delivered power times the step duration. -/
theorem laes_C8 (s : LAESSimulator) (step : TimeStepData) (dt_s dt_hours : ℝ)
    (hneed : 0 < dischargeLiquidNeeded s dt_s)
    (hde : 0 ≤ s.hot_storage.discharge_eff)
    (hhot : 0 ≤ s.hot_storage.energy_J)
    (hheat : 0 ≤ s.heat_per_kg_discharge) :
    (executeDischarge s step dt_s dt_hours).1.power_out_kW =
      s.cfg.discharge_power_kW *
        (dischargeLiquidConsumed s dt_s / dischargeLiquidNeeded s dt_s) *
        (if dischargeHeatDelivered s dt_s < 0.9 * dischargeHeatNeeded s dt_s then
          dischargeHeatDelivered s dt_s / dischargeHeatNeeded s dt_s
        else 1) ∧
    (executeDischarge s step dt_s dt_hours).1.energy_out_kWh =
      (executeDischarge s step dt_s dt_hours).1.power_out_kW * dt_hours := by
  have hcons : 0 ≤ dischargeLiquidConsumed s dt_s := by
    simp only [dischargeLiquidConsumed, LiquidAirTank.discharge, LiquidAirTank.available_kg]
    exact le_min hneed.le (le_max_left _ _)
  have hhn : 0 ≤ dischargeHeatNeeded s dt_s := mul_nonneg hheat hcons
  have hhd : 0 ≤ dischargeHeatDelivered s dt_s := by
    simp only [dischargeHeatDelivered, ThermalStorage.discharge]
    exact mul_nonneg (le_min (div_nonneg hhn hde) hhot) hde
  constructor
  · show (if dischargeHeatDelivered s dt_s < dischargeHeatNeeded s dt_s * 0.9 ∧
        0 < dischargeHeatNeeded s dt_s then
          s.cfg.discharge_power_kW *
            (if 0 < dischargeLiquidNeeded s dt_s then
              dischargeLiquidConsumed s dt_s / dischargeLiquidNeeded s dt_s else 0) *
            (dischargeHeatDelivered s dt_s / dischargeHeatNeeded s dt_s)
        else
          s.cfg.discharge_power_kW *
            (if 0 < dischargeLiquidNeeded s dt_s then
              dischargeLiquidConsumed s dt_s / dischargeLiquidNeeded s dt_s else 0)) = _
    rw [if_pos hneed]
    by_cases hcase : dischargeHeatDelivered s dt_s < 0.9 * dischargeHeatNeeded s dt_s
    · have hnpos : 0 < dischargeHeatNeeded s dt_s := by nlinarith
      rw [if_pos ⟨by linarith, hnpos⟩, if_pos hcase]
    · rw [if_neg ?hc, if_neg hcase, mul_one]
      case hc =>
        rintro ⟨h1, -⟩
        exact hcase (by linarith)
  · rfl

/-- A provider giving a simple linear enthalpy model, used to exercise the
discharge step on a concrete input: enthalpy equals temperature, an
isentropic expansion drops the enthalpy by 100, density is 1 and the
quality query always raises. -/
def wProvider : AirProvider :=
  { H_TP := fun T _ => T
    S_TP := fun T _ => T
    H_SP := fun s _ => s - 100
    T_HP := fun h _ => h
    T_PQ := fun _ q => q
    H_PQ := fun _ _ => 0
    D_TP := fun _ _ => 1
    Q_PH := fun _ _ => none }

/-- A small configuration for the concrete discharge step: one turbine
stage, discharge pressure equal to ambient (so the pump work is zero) and
ideal turbine / pump efficiencies. -/
def dischargeDemoConfig : PlantConfig :=
  { discharge_power_MW := 0.001
    P_discharge_bar := 1.01325
    n_turbine_stages := 1
    eta_turbine := 1
    eta_pump := 1 }

/-- A concrete simulator state for the discharge-step witness. -/
def simD : LAESSimulator :=
  { cfg := dischargeDemoConfig
    prov := wProvider
    tank := { capacity_kg := 100, min_level_frac := 0, boiloff_rate := 0, mass_kg := 50,
              total_charged_kg := 0, total_discharged_kg := 0, total_boiloff_kg := 0 }
    hot_storage := { capacity_J := 10000, loss_rate := 0, efficiency := 1, charge_eff := 1,
                     discharge_eff := 1, energy_J := 6000, total_charged_J := 0,
                     total_discharged_J := 0, total_lost_J := 0, overflow_J := 0 }
    cold_storage := ThermalStorage.init 1000 0 1
    total_energy_in_kWh := 0
    total_energy_out_kWh := 0 }

/-- The step record fed to the concrete discharge step. -/
def stepD : TimeStepData := { time_hours := 0, mode := SimMode.discharge }

/-- `range(1)` is the single index 0. -/
lemma range_one_eq : List.range 1 = [0] := rfl

/-- Witness for C8 at the concrete state `simD` with `dt = 1`. -/
theorem laes_C8_witness :
    0 < dischargeLiquidNeeded simD 1 ∧
    0 ≤ simD.hot_storage.discharge_eff ∧
    0 ≤ simD.hot_storage.energy_J ∧
    0 ≤ simD.heat_per_kg_discharge ∧
    ((executeDischarge simD stepD 1 1).1.power_out_kW =
      simD.cfg.discharge_power_kW *
        (dischargeLiquidConsumed simD 1 / dischargeLiquidNeeded simD 1) *
        (if dischargeHeatDelivered simD 1 < 0.9 * dischargeHeatNeeded simD 1 then
          dischargeHeatDelivered simD 1 / dischargeHeatNeeded simD 1
        else 1) ∧
    (executeDischarge simD stepD 1 1).1.energy_out_kWh =
      (executeDischarge simD stepD 1 1).1.power_out_kW * 1) := by
  have hso : simD.specific_output = 100 := by
    simp [LAESSimulator.specific_output, LAESSimulator.discharge_perf, calculateDischarge,
      turbineLoopStep, turbineStage, wProvider, dischargeDemoConfig, simD,
      PlantConfig.P_discharge_Pa, PlantConfig.P_ambient_Pa, PlantConfig.T_superheat_K,
      PlantConfig.T_intercool_K, range_one_eq]
    norm_num
  have hheat : 0 ≤ simD.heat_per_kg_discharge := by
    simp [LAESSimulator.heat_per_kg_discharge, LAESSimulator.discharge_perf,
      calculateDischarge, turbineLoopStep, turbineStage, wProvider, dischargeDemoConfig,
      simD, PlantConfig.P_discharge_Pa, PlantConfig.P_ambient_Pa, PlantConfig.T_superheat_K,
      PlantConfig.T_intercool_K, range_one_eq]
    norm_num
  have hneed : 0 < dischargeLiquidNeeded simD 1 := by
    simp only [dischargeLiquidNeeded, hso]
    norm_num [simD, dischargeDemoConfig, PlantConfig.discharge_power_kW]
  have hde : 0 ≤ simD.hot_storage.discharge_eff := by norm_num [simD]
  have hhot : 0 ≤ simD.hot_storage.energy_J := by norm_num [simD]
  exact ⟨hneed, hde, hhot, hheat, laes_C8 simD stepD 1 1 hneed hde hhot hheat⟩
